import Mathlib

/-!
Verification of the user service (`src/services/user/userService.js`).

The service layer is embedded shallowly: each operation becomes a pure Lean
function parametrised over the results/behaviour of its collaborators
(persistence store, bcrypt, token issuer, session cache).  A collaborator call
that can throw is modelled with `Except Exn`; a `try/catch` block in the source
is reflected by mapping each `.error` arising inside the block to the generic
error response the catch produces, while operations without a `try/catch`
return `Except` themselves, so a propagated exception is visible in the type.

JavaScript dynamic values that matter to the service (property reads that can
yield `undefined`, `null` default parameters, truthiness tests) are modelled by
the small value type `JSVal` with strict equality and truthiness translated
from JS semantics.
-/

/-- A JavaScript exception, opaque to the service (only caught or propagated). -/
structure Exn where
  msg : String
deriving DecidableEq

/-- The JavaScript values the service manipulates dynamically:
`undefined`, `null`, strings and (id) numbers. -/
inductive JSVal where
  | undefined
  | null
  | str (s : String)
  | num (n : Nat)
deriving DecidableEq, BEq

/-- JS truthiness for the values of `JSVal`: `undefined`, `null`, the empty
string and `0` are falsy, everything else truthy. -/
def truthy : JSVal → Bool
  | .undefined => false
  | .null => false
  | .str s => !(s == "")
  | .num n => !(n == 0)

/-- Modelled from the spec: HTTP-like status codes from the missing
`utils/statusCode.js` (OK 200, NO_CONTENT 204, BAD_REQUEST 400,
UNAUTHORIZED 401, DB_ERROR 500; SUCCESS is the success code 200). -/
def statusCode.OK : Nat := 200

def statusCode.SUCCESS : Nat := 200

def statusCode.NO_CONTENT : Nat := 204

def statusCode.BAD_REQUEST : Nat := 400

def statusCode.UNAUTHORIZED : Nat := 401

def statusCode.DB_ERROR : Nat := 500

/-- Modelled from the spec: descriptive response messages from the missing
`utils/responseMessage.js`; only their identity matters to the service. -/
def message.SUCCESS : String := "SUCCESS"

def message.INVALID_USER_INFO : String := "INVALID_USER_INFO"

def message.ALREADY_EXIST_EMAIL : String := "ALREADY_EXIST_EMAIL"

def message.ALREADY_EXIST_NICKNAME : String := "ALREADY_EXIST_NICKNAME"

def message.INTERNAL_SERVER_ERROR : String := "INTERNAL_SERVER_ERROR"

def message.FORBIDDEN : String := "FORBIDDEN"

def message.REFRESH_TOKEN_UNNECESSARY : String := "REFRESH_TOKEN_UNNECESSARY"

def message.NULL_VALUE : String := "NULL_VALUE"

def message.BAD_REQUEST : String := "BAD_REQUEST"

def message.DB_ERROR : String := "DB_ERROR"

/-- A token pair as issued by the token collaborator (`signTokens`). -/
structure TokenPair where
  accessToken : String
  refreshToken : String
deriving DecidableEq

/-- Modelled from the spec: a persisted User row of the missing
`models/user.js` — fields `{id, email, password(hashed), nickname, mbti}`,
with a soft-delete flag (`paranoid` model). `mbti` may be SQL `NULL`. -/
structure UserRow where
  id : Nat
  email : String
  password : String
  nickname : String
  mbti : JSVal
  deleted : Bool
deriving DecidableEq

/-- Modelled from the spec: JS property access on a User model instance.
The attributes of the data model are exposed as properties; any other
property (for instance `user_id` or `newNickname`) is `undefined`. -/
def userProp (u : UserRow) : String → JSVal
  | "id" => .num u.id
  | "email" => .str u.email
  | "password" => .str u.password
  | "nickname" => .str u.nickname
  | "mbti" => u.mbti
  | _ => .undefined

/-- A User model instance as handled by `editUser`/`deleteUser`: the
persisted attributes plus the three plain JS properties `newNickname`,
`newMbti`, `newPassword` that `editUser` reads and writes (on an instance
fresh from the store these are `undefined`). -/
structure UserObj where
  id : Nat
  email : String
  password : String
  nickname : String
  mbti : JSVal
  newNickname : JSVal
  newMbti : JSVal
  newPassword : JSVal
deriving DecidableEq

/-- Modelled from the spec: `save` persists exactly the entity's attribute
fields `{id, email, password, nickname, mbti}` of the instance — plain JS
properties that are not attributes are not persisted. -/
def persistedRow (u : UserObj) : UserRow :=
  ⟨u.id, u.email, u.password, u.nickname, u.mbti, false⟩

/-- Modelled from the spec: the structured payloads built by the missing
`utils/responseData.js` (`loginResponse`, `signUpResponse`,
`resignTokenResponse` are token-pair shaped) plus the raw data the (DB)
operations embed in their responses. -/
inductive Payload where
  | login (accessToken refreshToken : String)
  | signUpData (accessToken refreshToken : String)
  | resign (accessToken refreshToken : String)
  | user (u : UserRow)
  | deleted (u : UserObj)
deriving DecidableEq

/-- Modelled from the spec: the structured body from the missing
`utils/response.js` — status/message/data for `response`, status/message for
`errResponse`. -/
structure Body where
  isErr : Bool
  status : Nat
  message : String
  data : Option Payload
deriving DecidableEq

/-- `response(status, message, data?)` of `utils/response.js`. -/
def response (status : Nat) (msg : String) (data : Option Payload) : Body :=
  ⟨false, status, msg, data⟩

/-- `errResponse(status, message)` of `utils/response.js`. -/
def errResponse (status : Nat) (msg : String) : Body :=
  ⟨true, status, msg, none⟩

/-- The value a service operation hands back to the controller: either a
`[statusCode, body]` array (a pair) or a bare `response`/`errResponse`
object. -/
inductive SvcResult where
  | pair (status : Nat) (body : Body)
  | bare (body : Body)
deriving DecidableEq

/-- Whether a service return value is a `[statusCode, body]` pair. -/
def SvcResult.isPair : SvcResult → Bool
  | .pair _ _ => true
  | .bare _ => false

/-- The generic catch-all result `[DB_ERROR, errResponse(DB_ERROR,
INTERNAL_SERVER_ERROR)]` used by the catch blocks of `login`/`signUp`. -/
def dbErrorPair : SvcResult :=
  .pair statusCode.DB_ERROR
    (errResponse statusCode.DB_ERROR message.INTERNAL_SERVER_ERROR)

/-- The outcome constants of `resignTokenStatus` (`utils/constants.js`),
plus `other` for any value outside the three recognized outcomes. -/
inductive ResignOutcome where
  | RESIGN_ACCESS_TOKEN
  | UNAUTHORIZED
  | UNNECESSARY
  | other (s : String)
deriving DecidableEq

/-- `login(email, password)`: find user by email, reject absent user or
password mismatch with 400 INVALID_USER_INFO, otherwise sign tokens for the
found id; the whole body sits in `try/catch`, so a throwing collaborator
yields the generic `dbErrorPair`. -/
def login (findOneByEmail : String → Except Exn (Option UserRow))
    (compareSync : String → String → Bool)
    (signTokens : JSVal → Except Exn TokenPair)
    (email password : String) : SvcResult :=
  match findOneByEmail email with
  | .error _ => dbErrorPair
  | .ok none =>
      .pair statusCode.BAD_REQUEST
        (errResponse statusCode.BAD_REQUEST message.INVALID_USER_INFO)
  | .ok (some user) =>
      if !(compareSync password user.password) then
        .pair statusCode.BAD_REQUEST
          (errResponse statusCode.BAD_REQUEST message.INVALID_USER_INFO)
      else
        match signTokens (.num user.id) with
        | .error _ => dbErrorPair
        | .ok tp =>
            .pair statusCode.OK
              (response statusCode.OK message.SUCCESS
                (some (.login tp.accessToken tp.refreshToken)))

/-- `signUp(email, password, nickname)`: duplicate email then duplicate
nickname checks, then `bcrypt.hashSync`, `User.create`, and
`signTokens(newUser.user_id)` — note the source reads the property
`user_id`, not the model's `id` attribute. All inside `try/catch`. -/
def signUp (findOneByEmail findOneByNickname : String → Except Exn (Option UserRow))
    (hashSync : String → String)
    (create : String → String → String → Except Exn UserRow)
    (signTokens : JSVal → Except Exn TokenPair)
    (email password nickname : String) : SvcResult :=
  match findOneByEmail email with
  | .error _ => dbErrorPair
  | .ok (some _) =>
      .pair statusCode.BAD_REQUEST
        (errResponse statusCode.BAD_REQUEST message.ALREADY_EXIST_EMAIL)
  | .ok none =>
      match findOneByNickname nickname with
      | .error _ => dbErrorPair
      | .ok (some _) =>
          .pair statusCode.BAD_REQUEST
            (errResponse statusCode.BAD_REQUEST message.ALREADY_EXIST_NICKNAME)
      | .ok none =>
          let encryptedPassword := hashSync password
          match create email encryptedPassword nickname with
          | .error _ => dbErrorPair
          | .ok newUser =>
              let userId := userProp newUser "user_id"
              match signTokens userId with
              | .error _ => dbErrorPair
              | .ok tp =>
                  .pair statusCode.OK
                    (response statusCode.OK message.SUCCESS
                      (some (.signUpData tp.accessToken tp.refreshToken)))

/-- Deleting a key from the session cache (`redisClient.del`). -/
def cacheDel (cache : List String) (key : String) : List String :=
  cache.filter (fun k => k ≠ key)

/-- `logout(userId)`: fire-and-forget `redisClient.del(String(userId))` —
the call's outcome is discarded — then unconditionally `[OK, response(OK,
SUCCESS)]`. -/
def logout (cache : List String) (userId : Nat) : List String × SvcResult :=
  (cacheDel cache (toString userId),
   .pair statusCode.OK (response statusCode.OK message.SUCCESS none))

/-- `resignToken(accessToken, refreshToken)`: awaits the external
`resignAccessToken` decision (no `try/catch`, so its exception propagates)
and dispatches on the outcome through an if/else-if chain with no final
else — an unrecognized outcome falls through and the function returns
`undefined` (`none`). -/
def resignToken (resignResult : Except Exn (ResignOutcome × String))
    (refreshToken : String) : Except Exn (Option SvcResult) :=
  match resignResult with
  | .error e => .error e
  | .ok (result, newAccessToken) =>
      if result = ResignOutcome.RESIGN_ACCESS_TOKEN then
        .ok (some (.pair statusCode.OK
          (response statusCode.SUCCESS message.SUCCESS
            (some (.resign newAccessToken refreshToken)))))
      else if result = ResignOutcome.UNAUTHORIZED then
        .ok (some (.pair statusCode.UNAUTHORIZED
          (errResponse statusCode.UNAUTHORIZED message.FORBIDDEN)))
      else if result = ResignOutcome.UNNECESSARY then
        .ok (some (.pair statusCode.BAD_REQUEST
          (errResponse statusCode.BAD_REQUEST message.REFRESH_TOKEN_UNNECESSARY)))
      else
        .ok none

/-- `getUser(userId)`: `findByPk` lookup, returning a bare `response` on a
hit, bare `errResponse(NO_CONTENT, NULL_VALUE)` on a miss, and bare
`errResponse(DB_ERROR, DB_ERROR)` from the catch block. -/
def getUser (findByPk : Nat → Except Exn (Option UserRow))
    (userId : Nat) : SvcResult :=
  match findByPk userId with
  | .ok (some user) =>
      .bare (response statusCode.OK message.SUCCESS (some (.user user)))
  | .ok none => .bare (errResponse statusCode.NO_CONTENT message.NULL_VALUE)
  | .error _ => .bare (errResponse statusCode.DB_ERROR message.DB_ERROR)

/-- The result of `editUser`: the (possibly mutated) in-memory instance,
the row written by a successful `save` (if any), and the returned value. -/
structure EditOutcome where
  user : UserObj
  saved : Option UserRow
  result : SvcResult
deriving DecidableEq

/-- `editUser(user, newNickname = null, newMbti = null, newPassword = null)`:
iterates the keys `newNickname`, `newMbti`, `newPassword` of `dataToEdit`;
for each, skips when `user[key] === dataToEdit[key]` or `dataToEdit[key]`
is falsy, else assigns `user[key] = dataToEdit[key]` and counts an update.
With no updates it returns a bare `errResponse(BAD_REQUEST)`; otherwise
`user.save()` inside `try/catch`, answering a bare `response(OK, SUCCESS)`
or a bare `errResponse(DB_ERROR, DB_ERROR)`. -/
def editUser (user : UserObj) (newNickname newMbti newPassword : JSVal)
    (saveResult : Except Exn Unit) : EditOutcome :=
  let step1 :=
    if user.newNickname == newNickname || !(truthy newNickname) then
      (user, 0)
    else
      ({ user with newNickname := newNickname }, 1)
  let step2 :=
    if step1.1.newMbti == newMbti || !(truthy newMbti) then
      step1
    else
      ({ step1.1 with newMbti := newMbti }, step1.2 + 1)
  let step3 :=
    if step2.1.newPassword == newPassword || !(truthy newPassword) then
      step2
    else
      ({ step2.1 with newPassword := newPassword }, step2.2 + 1)
  if step3.2 = 0 then
    ⟨step3.1, none,
      .bare (errResponse statusCode.BAD_REQUEST message.BAD_REQUEST)⟩
  else
    match saveResult with
    | .ok _ =>
        ⟨step3.1, some (persistedRow step3.1),
          .bare (response statusCode.OK message.SUCCESS none)⟩
    | .error _ =>
        ⟨step3.1, none,
          .bare (errResponse statusCode.DB_ERROR message.DB_ERROR)⟩

/-- `deleteUser(user)`: `user.destroy(...)` (soft delete) inside
`try/catch`; on success a bare `response(OK, SUCCESS, {deleted: user})`,
on a thrown store error a bare `errResponse(DB_ERROR, DB_ERROR)`. -/
def deleteUser (user : UserObj) (destroyResult : Except Exn Unit) : SvcResult :=
  match destroyResult with
  | .ok _ =>
      .bare (response statusCode.OK message.SUCCESS (some (.deleted user)))
  | .error _ => .bare (errResponse statusCode.DB_ERROR message.DB_ERROR)

/-- The store's `findOne({where: {email}})` over a list-modelled table:
first non-deleted row with the given email (`paranoid` reads skip
soft-deleted rows). -/
def storeFindEmail (store : List UserRow) : String → Except Exn (Option UserRow) :=
  fun email => .ok (store.find? (fun u => !u.deleted && u.email == email))

/-- The store's `findOne({where: {nickname}})` over a list-modelled table. -/
def storeFindNick (store : List UserRow) : String → Except Exn (Option UserRow) :=
  fun nickname => .ok (store.find? (fun u => !u.deleted && u.nickname == nickname))

/-- The store's `findByPk` over a list-modelled table. -/
def storeFindByPk (store : List UserRow) : Nat → Except Exn (Option UserRow) :=
  fun id => .ok (store.find? (fun u => !u.deleted && u.id == id))

/-- Modelled from the spec: `User.create({email, password, nickname})`
returns a fresh row with a store-assigned id and `mbti` initially null. -/
def storeCreate (freshId : Nat) : String → String → String → Except Exn UserRow :=
  fun email password nickname => .ok ⟨freshId, email, password, nickname, .null, false⟩

/-- A find collaborator that throws. -/
def throwingFind (e : Exn) : String → Except Exn (Option UserRow) :=
  fun _ => .error e

/-- A `findByPk` collaborator that throws. -/
def throwingFindPk (e : Exn) : Nat → Except Exn (Option UserRow) :=
  fun _ => .error e

/-- A find collaborator that always returns the given user. -/
def constFind (u : UserRow) : String → Except Exn (Option UserRow) :=
  fun _ => .ok (some u)

/-- A find collaborator that finds nothing. -/
def noneFind : String → Except Exn (Option UserRow) :=
  fun _ => .ok none

/-- A token issuer that throws. -/
def throwingSign (e : Exn) : JSVal → Except Exn TokenPair :=
  fun _ => .error e

/-- A `create` collaborator that throws. -/
def throwingCreate (e : Exn) : String → String → String → Except Exn UserRow :=
  fun _ _ _ => .error e

/-- Rendering of a `JSVal` as JS string interpolation would show it. -/
def jsShow : JSVal → String
  | .undefined => "undefined"
  | .null => "null"
  | .str s => s
  | .num n => toString n

/-- A concrete deterministic token issuer: tokens record the id they were
signed for. -/
def demoSign : JSVal → Except Exn TokenPair :=
  fun v => .ok ⟨jsShow v ++ "-acc", jsShow v ++ "-ref"⟩

/-- A concrete hash: `H` followed by the plaintext. -/
def demoHash : String → String :=
  fun p => "H" ++ p

/-- The matching concrete `bcrypt.compareSync`. -/
def demoCmp : String → String → Bool :=
  fun p h => h == "H" ++ p

/-- A user instance fresh from the store: the `new*` properties are
`undefined`. -/
def demoUser : UserObj :=
  ⟨1, "e@x.com", "hashed", "alice", .str "INTJ", .undefined, .undefined, .undefined⟩

/-- The persisted row of `demoUser`. -/
def demoUserRow : UserRow :=
  ⟨1, "e@x.com", "hashed", "alice", .str "INTJ", false⟩

/-- A one-user store for login/signUp scenarios. -/
def demoStore : List UserRow :=
  [⟨1, "a@b.c", "Hpw", "nick", .null, false⟩]

/-- Whether a `resignToken`-style result is a normally returned
`[statusCode, body]` pair. -/
def okPairShape : Except Exn (Option SvcResult) → Bool
  | .ok (some x) => x.isPair
  | _ => false

/-- C8: resignToken is a deterministic function of the reissue decision —
the RESIGN_ACCESS_TOKEN (REISSUE) outcome yields the 200 pair whose body
carries the new access token and the unchanged input refresh token,
UNAUTHORIZED yields the 401 pair, UNNECESSARY yields the 400 pair. -/
theorem resignToken_maps_outcomes (newAccessToken refreshToken : String) :
    resignToken (.ok (ResignOutcome.RESIGN_ACCESS_TOKEN, newAccessToken)) refreshToken =
      .ok (some (.pair statusCode.OK
        (response statusCode.SUCCESS message.SUCCESS
          (some (.resign newAccessToken refreshToken)))))
    ∧ resignToken (.ok (ResignOutcome.UNAUTHORIZED, newAccessToken)) refreshToken =
      .ok (some (.pair statusCode.UNAUTHORIZED
        (errResponse statusCode.UNAUTHORIZED message.FORBIDDEN)))
    ∧ resignToken (.ok (ResignOutcome.UNNECESSARY, newAccessToken)) refreshToken =
      .ok (some (.pair statusCode.BAD_REQUEST
        (errResponse statusCode.BAD_REQUEST message.REFRESH_TOKEN_UNNECESSARY))) :=
  ⟨rfl, rfl, rfl⟩

/-- C9: logout returns the 200 success pair for every cache state and every
user id — in particular when no cached entry for the id exists — and
calling it a second time on the resulting cache returns 200 again. -/
theorem logout_always_ok (cache : List String) (userId : Nat) :
    (logout cache userId).2 =
      .pair statusCode.OK (response statusCode.OK message.SUCCESS none)
    ∧ (logout (logout cache userId).1 userId).2 =
      .pair statusCode.OK (response statusCode.OK message.SUCCESS none) :=
  ⟨rfl, rfl⟩

/-- C10: when the external reissue decision produces any value other than
the three recognized outcomes, the if/else-if chain of resignToken falls
through and the operation returns `undefined` (no response at all). -/
theorem resignToken_not_exhaustive (s newAccessToken refreshToken : String) :
    resignToken (.ok (ResignOutcome.other s, newAccessToken)) refreshToken =
      .ok none :=
  rfl

/-- C1 (code evaluation): calling editUser on a stored user whose nickname
is "alice" with newNickname = "alice" (the current value) and the other
fields null does not return 400 — the comparison reads `user.newNickname`
(undefined) instead of `user.nickname`, so the unchanged value counts as a
change: the call saves and returns the bare 200 success body. -/
theorem editUser_unchanged_field_not_rejected :
    demoUser.nickname = "alice"
    ∧ editUser demoUser (.str "alice") .null .null (.ok ()) =
        ⟨{ demoUser with newNickname := .str "alice" }, some demoUserRow,
          .bare (response statusCode.OK message.SUCCESS none)⟩ :=
  ⟨rfl, rfl⟩

/-- C5 (code evaluation): editUser with exactly one genuinely new field
(newNickname = "bob") assigns the non-attribute property `newNickname`
instead of `nickname`, so the instance's nickname attribute and the row
written by save still hold "alice"; the operation still reports success
(as a bare body, not a 200 pair). -/
theorem editUser_does_not_overwrite_attribute :
    (editUser demoUser (.str "bob") .null .null (.ok ())).user.nickname = "alice"
    ∧ (editUser demoUser (.str "bob") .null .null (.ok ())).saved = some demoUserRow
    ∧ demoUserRow.nickname = "alice"
    ∧ (editUser demoUser (.str "bob") .null .null (.ok ())).result =
        .bare (response statusCode.OK message.SUCCESS none) :=
  ⟨rfl, rfl, rfl, rfl⟩

/-- C4 (code evaluation): on a successful signUp over an empty store the
created row gets id 7, but the source signs tokens for `newUser.user_id` —
a property the User model does not have — so the issued tokens are signed
for `undefined` rather than for the new id: with the instrumented issuer
the response carries "undefined-acc"/"undefined-ref", and the property
read is `undefined`, distinct from the created id. -/
theorem signUp_signs_for_undefined :
    signUp (storeFindEmail []) (storeFindNick []) demoHash (storeCreate 7)
        demoSign "a@b.c" "pw" "nick" =
      .pair statusCode.OK
        (response statusCode.OK message.SUCCESS
          (some (.signUpData "undefined-acc" "undefined-ref")))
    ∧ userProp ⟨7, "a@b.c", demoHash "pw", "nick", .null, false⟩ "user_id" = .undefined
    ∧ JSVal.undefined ≠ JSVal.num 7 :=
  ⟨rfl, rfl, by decide⟩

/-- A concrete exception for counterexamples. -/
def demoExn : Exn := ⟨"boom"⟩

/-- C2 (counterexample): getUser on a store containing the requested user
returns a bare response body, not a `[statusCode, body]` pair. -/
theorem getUser_returns_bare_body :
    (getUser (storeFindByPk demoStore) 1).isPair = false :=
  rfl

/-- C2 (amended): login, signUp and logout return `[statusCode, body]`
pairs on every path, and resignToken does on each recognized outcome,
while getUser, editUser and deleteUser always return a bare
response/errResponse body with no separate status-code component. -/
theorem response_shapes :
    (∀ find cmp sign e p, (login find cmp sign e p).isPair = true)
    ∧ (∀ fe fn h cr sg e p n, (signUp fe fn h cr sg e p n).isPair = true)
    ∧ (∀ c uid, ((logout c uid).2).isPair = true)
    ∧ (∀ a rt,
        okPairShape (resignToken (.ok (ResignOutcome.RESIGN_ACCESS_TOKEN, a)) rt) = true)
    ∧ (∀ a rt,
        okPairShape (resignToken (.ok (ResignOutcome.UNAUTHORIZED, a)) rt) = true)
    ∧ (∀ a rt,
        okPairShape (resignToken (.ok (ResignOutcome.UNNECESSARY, a)) rt) = true)
    ∧ (∀ find uid, (getUser find uid).isPair = false)
    ∧ (∀ u a b c s, ((editUser u a b c s).result).isPair = false)
    ∧ (∀ u d, (deleteUser u d).isPair = false) := by
  refine ⟨?_, ?_, ?_, ?_, ?_, ?_, ?_, ?_, ?_⟩
  · intro find cmp sign e p
    simp only [login]
    cases find e with
    | error _ => rfl
    | ok o =>
      cases o with
      | none => rfl
      | some u =>
        cases hc : cmp p u.password with
        | false => simp only [hc]; rfl
        | true =>
          simp only [hc]
          cases sign (.num u.id) with
          | error _ => rfl
          | ok tp => rfl
  · intro fe fn h cr sg e p n
    simp only [signUp]
    cases fe e with
    | error _ => rfl
    | ok o =>
      cases o with
      | some _ => rfl
      | none =>
        cases fn n with
        | error _ => rfl
        | ok o2 =>
          cases o2 with
          | some _ => rfl
          | none =>
            cases cr e (h p) n with
            | error _ => rfl
            | ok newUser =>
              dsimp only
              cases sg (userProp newUser "user_id") with
              | error _ => rfl
              | ok tp => rfl
  · intro c uid
    rfl
  · intro a rt
    rfl
  · intro a rt
    rfl
  · intro a rt
    rfl
  · intro find uid
    simp only [getUser]
    cases find uid with
    | error _ => rfl
    | ok o => cases o with
      | none => rfl
      | some u => rfl
  · intro u a b c s
    simp only [editUser]
    repeat' split
    all_goals rfl
  · intro u d
    cases d with
    | ok _ => rfl
    | error _ => rfl

/-- C3 (counterexample): resignToken has no try/catch — when the external
token-reissue decision throws, the exception propagates to the caller
instead of being converted into an error response. -/
theorem resignToken_propagates_exception :
    resignToken (Except.error demoExn) "rt" = Except.error demoExn :=
  rfl

/-- C3 (amended): login, signUp, getUser, editUser and deleteUser catch
collaborator exceptions and convert them into the generic
internal/database-error response — for editUser, every call whose `save`
throws (those that reach `save` at all, i.e. would have persisted on a
succeeding `save`) answers the generic database-error body, and the others
never see the exception and answer the 400 no-op body; logout discards the
cache call's outcome and still returns 200; but resignToken propagates an
exception thrown by the token-reissue decision to its caller. -/
theorem exceptions_caught_except_resignToken :
    (∀ ex cmp sign e p, login (throwingFind ex) cmp sign e p = dbErrorPair)
    ∧ (∀ ex u e p,
        login (constFind u) (fun _ _ => true) (throwingSign ex) e p = dbErrorPair)
    ∧ (∀ ex fn h cr sg e p n, signUp (throwingFind ex) fn h cr sg e p n = dbErrorPair)
    ∧ (∀ ex h cr sg e p n,
        signUp noneFind (throwingFind ex) h cr sg e p n = dbErrorPair)
    ∧ (∀ ex h sg e p n,
        signUp noneFind noneFind h (throwingCreate ex) sg e p n = dbErrorPair)
    ∧ (∀ ex h fId e p n,
        signUp noneFind noneFind h (storeCreate fId) (throwingSign ex) e p n = dbErrorPair)
    ∧ (∀ ex uid,
        getUser (throwingFindPk ex) uid =
          .bare (errResponse statusCode.DB_ERROR message.DB_ERROR))
    ∧ (∀ (u : UserObj) (a b c : JSVal) (ex : Exn),
        (editUser u a b c (.error ex)).result =
          (if (editUser u a b c (.ok ())).saved.isSome then
            .bare (errResponse statusCode.DB_ERROR message.DB_ERROR)
          else
            .bare (errResponse statusCode.BAD_REQUEST message.BAD_REQUEST)))
    ∧ (∀ ex u,
        deleteUser u (.error ex) =
          .bare (errResponse statusCode.DB_ERROR message.DB_ERROR))
    ∧ (∀ c uid,
        (logout c uid).2 =
          .pair statusCode.OK (response statusCode.OK message.SUCCESS none))
    ∧ (∀ ex rt, resignToken (.error ex) rt = .error ex) := by
  refine ⟨?_, ?_, ?_, ?_, ?_, ?_, ?_, ?editUserPart, ?_, ?_, ?_⟩
  case editUserPart =>
    intro u a b c ex
    simp only [editUser]
    repeat' split
    all_goals first | rfl | simp_all
  all_goals intros
  all_goals rfl

/-- C6: over a list-modelled store, login returns 400 INVALID_USER_INFO
whenever no (non-deleted) user with the email exists or the stored hash
does not match the password, and returns the 200 pair carrying the issued
token pair whenever the user exists, the password matches, and the token
issuer answers. -/
theorem login_spec (store : List UserRow) (cmp : String → String → Bool)
    (sign : JSVal → Except Exn TokenPair) (email password : String) :
    (store.find? (fun r => !r.deleted && r.email == email) = none →
      login (storeFindEmail store) cmp sign email password =
        .pair statusCode.BAD_REQUEST
          (errResponse statusCode.BAD_REQUEST message.INVALID_USER_INFO))
    ∧ (∀ u, store.find? (fun r => !r.deleted && r.email == email) = some u →
        cmp password u.password = false →
        login (storeFindEmail store) cmp sign email password =
          .pair statusCode.BAD_REQUEST
            (errResponse statusCode.BAD_REQUEST message.INVALID_USER_INFO))
    ∧ (∀ u tp, store.find? (fun r => !r.deleted && r.email == email) = some u →
        cmp password u.password = true →
        sign (.num u.id) = .ok tp →
        login (storeFindEmail store) cmp sign email password =
          .pair statusCode.OK
            (response statusCode.OK message.SUCCESS
              (some (.login tp.accessToken tp.refreshToken)))) := by
  refine ⟨?_, ?_, ?_⟩
  · intro hf
    simp only [login, storeFindEmail, hf]
  · intro u hf hc
    simp only [login, storeFindEmail, hf, hc]
    rfl
  · intro u tp hf hc hs
    simp only [login, storeFindEmail, hf, hc, hs]
    rfl

/-- C6 (witness): on the one-user demo store, login answers 400
INVALID_USER_INFO for an unknown email and for a wrong password, and 200
with the issued tokens for correct credentials. -/
theorem login_spec_witness :
    login (storeFindEmail demoStore) demoCmp demoSign "zz@q.r" "pw" =
      .pair statusCode.BAD_REQUEST
        (errResponse statusCode.BAD_REQUEST message.INVALID_USER_INFO)
    ∧ login (storeFindEmail demoStore) demoCmp demoSign "a@b.c" "wrong" =
      .pair statusCode.BAD_REQUEST
        (errResponse statusCode.BAD_REQUEST message.INVALID_USER_INFO)
    ∧ login (storeFindEmail demoStore) demoCmp demoSign "a@b.c" "pw" =
      .pair statusCode.OK
        (response statusCode.OK message.SUCCESS (some (.login "1-acc" "1-ref"))) :=
  ⟨(login_spec demoStore demoCmp demoSign "zz@q.r" "pw").1 (by decide),
   (login_spec demoStore demoCmp demoSign "a@b.c" "wrong").2.1
     ⟨1, "a@b.c", "Hpw", "nick", .null, false⟩ (by decide) (by decide),
   (login_spec demoStore demoCmp demoSign "a@b.c" "pw").2.2
     ⟨1, "a@b.c", "Hpw", "nick", .null, false⟩ ⟨"1-acc", "1-ref"⟩
     (by decide) (by decide) rfl⟩

/-- C7: over a list-modelled store, signUp answers 400 ALREADY_EXIST_EMAIL
when a (non-deleted) user with the email exists, 400
ALREADY_EXIST_NICKNAME when the email is fresh but the nickname is taken,
and with both fresh it creates the user with the hashed password and
returns the 200 pair with the issued tokens. -/
theorem signUp_spec (store : List UserRow) (hash : String → String)
    (create : String → String → String → Except Exn UserRow)
    (sign : JSVal → Except Exn TokenPair) (email password nickname : String) :
    (∀ u, store.find? (fun r => !r.deleted && r.email == email) = some u →
      signUp (storeFindEmail store) (storeFindNick store) hash create sign
          email password nickname =
        .pair statusCode.BAD_REQUEST
          (errResponse statusCode.BAD_REQUEST message.ALREADY_EXIST_EMAIL))
    ∧ (∀ u, store.find? (fun r => !r.deleted && r.email == email) = none →
        store.find? (fun r => !r.deleted && r.nickname == nickname) = some u →
        signUp (storeFindEmail store) (storeFindNick store) hash create sign
            email password nickname =
          .pair statusCode.BAD_REQUEST
            (errResponse statusCode.BAD_REQUEST message.ALREADY_EXIST_NICKNAME))
    ∧ (∀ newU tp, store.find? (fun r => !r.deleted && r.email == email) = none →
        store.find? (fun r => !r.deleted && r.nickname == nickname) = none →
        create email (hash password) nickname = .ok newU →
        sign (userProp newU "user_id") = .ok tp →
        signUp (storeFindEmail store) (storeFindNick store) hash create sign
            email password nickname =
          .pair statusCode.OK
            (response statusCode.OK message.SUCCESS
              (some (.signUpData tp.accessToken tp.refreshToken)))) := by
  refine ⟨?_, ?_, ?_⟩
  · intro u hf
    simp only [signUp, storeFindEmail, hf]
  · intro u hf hn
    simp only [signUp, storeFindEmail, storeFindNick, hf, hn]
  · intro newU tp hf hn hcr hs
    simp only [signUp, storeFindEmail, storeFindNick, hf, hn, hcr, hs]

/-- C7 (witness): on the one-user demo store, signUp rejects the taken
email with ALREADY_EXIST_EMAIL and the taken nickname with
ALREADY_EXIST_NICKNAME, and with fresh values creates the user and answers
200 with the issued tokens. -/
theorem signUp_spec_witness :
    signUp (storeFindEmail demoStore) (storeFindNick demoStore) demoHash
        (storeCreate 2) demoSign "a@b.c" "x" "fresh" =
      .pair statusCode.BAD_REQUEST
        (errResponse statusCode.BAD_REQUEST message.ALREADY_EXIST_EMAIL)
    ∧ signUp (storeFindEmail demoStore) (storeFindNick demoStore) demoHash
        (storeCreate 2) demoSign "c@d.e" "x" "nick" =
      .pair statusCode.BAD_REQUEST
        (errResponse statusCode.BAD_REQUEST message.ALREADY_EXIST_NICKNAME)
    ∧ signUp (storeFindEmail demoStore) (storeFindNick demoStore) demoHash
        (storeCreate 2) demoSign "c@d.e" "pw2" "newnick" =
      .pair statusCode.OK
        (response statusCode.OK message.SUCCESS
          (some (.signUpData "undefined-acc" "undefined-ref"))) :=
  ⟨(signUp_spec demoStore demoHash (storeCreate 2) demoSign "a@b.c" "x" "fresh").1
     ⟨1, "a@b.c", "Hpw", "nick", .null, false⟩ (by decide),
   (signUp_spec demoStore demoHash (storeCreate 2) demoSign "c@d.e" "x" "nick").2.1
     ⟨1, "a@b.c", "Hpw", "nick", .null, false⟩ (by decide) (by decide),
   (signUp_spec demoStore demoHash (storeCreate 2) demoSign "c@d.e" "pw2" "newnick").2.2
     ⟨2, "c@d.e", "Hpw2", "newnick", .null, false⟩ ⟨"undefined-acc", "undefined-ref"⟩
     (by decide) (by decide) rfl rfl⟩
